import Mathlib

/-!
Verification of the RockBLOCK 9704 loopback driver
(`src/9704/9704_loopback.py`) against its natural-language
specification.

The development shallowly embeds the Python code:
* bytes are `List Nat` (each element a byte value `< 256`);
* Python integers are `Nat`/`Int`;
* JSON values (the results of `json.loads`) are the inductive `Json`
  below; JSON numeric literals are modelled as integers only — the
  modem protocol uses integer fields throughout and no claim concerns
  floating point;
* Python runtime exceptions inside `process_line` (all caught by its
  `except` clause) are modelled by `Except Unit` results: a raising
  evaluation aborts the handler while keeping the mutations already
  performed, exactly as the caught exception does in the source.
-/

namespace RB9704

/-- JSON values as produced by `json.loads`.  Objects keep insertion
order with unique keys (the parser below performs the replace-in-place
update Python dicts use for duplicate keys). -/
inductive Json where
  | null : Json
  | bool (b : Bool) : Json
  | num (n : Int) : Json
  | str (s : String) : Json
  | arr (items : List Json) : Json
  | obj (fields : List (String × Json)) : Json

/-- Association lookup in a JSON object (first occurrence; parser
output has unique keys, so this agrees with Python dict lookup). -/
def jlookup (k : String) : List (String × Json) → Option Json
  | [] => none
  | (k2, v) :: rest => if k = k2 then some v else jlookup k rest

/-- Python truthiness of a JSON value (`bool(x)`). -/
def pyTruthy : Json → Bool
  | .null => false
  | .bool b => b
  | .num n => n != 0
  | .str s => s != ""
  | .arr items => !items.isEmpty
  | .obj fields => !fields.isEmpty

mutual

/-- Python `==` between two JSON values: numbers and booleans compare
by numeric value (`True == 1`, `False == 0`), strings by content,
lists elementwise, dicts by key set and values (parser output has
unique keys, making the subset-plus-length test below exact). -/
def pyEq : Json → Json → Bool
  | .null, .null => true
  | .bool a, .bool b => a == b
  | .bool a, .num n => (if a then (1 : Int) else 0) == n
  | .num n, .bool a => n == (if a then (1 : Int) else 0)
  | .num a, .num b => a == b
  | .str a, .str b => a == b
  | .arr a, .arr b => pyEqArr a b
  | .obj a, .obj b => a.length == b.length && pyEqObjSub a b
  | _, _ => false

/-- Elementwise Python equality of JSON arrays. -/
def pyEqArr : List Json → List Json → Bool
  | [], [] => true
  | x :: xs, y :: ys => pyEq x y && pyEqArr xs ys
  | _, _ => false

/-- Every field of the first object matches a field of the second. -/
def pyEqObjSub : List (String × Json) → List (String × Json) → Bool
  | [], _ => true
  | (k, v) :: rest, b =>
      (match jlookup k b with
       | some w => pyEq v w
       | none => false) && pyEqObjSub rest b

end

/-- Python `dict.get(key, default)` on a JSON value: raises
(`AttributeError`) unless the value is an object. -/
def pyGet (j : Json) (key : String) (default : Json) : Except Unit Json :=
  match j with
  | .obj fields => .ok ((jlookup key fields).getD default)
  | _ => .error ()

/-- Evaluate a JSON value as a number for an ordering comparison with
an `int` (Python `x >= 1`): numbers compare directly, booleans as 0/1,
anything else raises `TypeError`. -/
def asCmpNum : Json → Except Unit Int
  | .num n => .ok n
  | .bool b => .ok (if b then 1 else 0)
  | _ => .error ()

/-! ### Python string primitives -/

/-- Python `str.isspace` / `str.split()` whitespace, restricted to the
code points a decoded ascii-with-replacement line can contain:
TAB, LF, VT, FF, CR, FS, GS, RS, US and SPACE. -/
def pyIsSpace (c : Char) : Bool :=
  c.toNat == 32 || (9 ≤ c.toNat && c.toNat ≤ 13) || (28 ≤ c.toNat && c.toNat ≤ 31)

/-- Worker for `pySplit`: `acc` holds the current token reversed. -/
def pySplitGo : List Char → List Char → List (List Char)
  | [], acc => if acc.isEmpty then [] else [acc.reverse]
  | c :: rest, acc =>
      if pyIsSpace c then
        if acc.isEmpty then pySplitGo rest [] else acc.reverse :: pySplitGo rest []
      else pySplitGo rest (c :: acc)

/-- Python `str.split()` with no argument: split on whitespace runs,
dropping empty tokens. -/
def pySplit (cs : List Char) : List (List Char) := pySplitGo cs []

/-- Python `str.strip()`: drop leading and trailing whitespace. -/
def pyStrip (cs : List Char) : List Char :=
  ((cs.dropWhile pyIsSpace).reverse.dropWhile pyIsSpace).reverse

/-- `bytes.decode("ascii", errors="replace")`: bytes below 128 decode
to themselves, anything else becomes U+FFFD. -/
def decodeReplace (bs : List Nat) : List Char :=
  bs.map fun b => if b < 128 then Char.ofNat b else Char.ofNat 0xFFFD

/-- `str.encode("ascii")`: fails (`UnicodeEncodeError`) when any
character is outside ascii. -/
def encodeAscii (s : String) : Except Unit (List Nat) :=
  if s.toList.all (fun c => c.toNat < 128) then
    .ok (s.toList.map Char.toNat)
  else .error ()

/-- First index at which `needle` occurs as a contiguous substring of
`hay` (Python `str.index`). -/
def indexOfSub (hay needle : List Char) : Option Nat :=
  if needle.isPrefixOf hay then some 0
  else
    match hay with
    | [] => none
    | _ :: t => (indexOfSub t needle).map (· + 1)

/-- Python `int(token)`: an optional sign followed by decimal digits
(the token has no surrounding whitespace by construction; numeric
underscores are not modelled). -/
def digitsToNat : List Char → Option Nat
  | [] => none
  | ds =>
      if ds.all Char.isDigit then
        some (ds.foldl (fun n c => 10 * n + (c.toNat - 48)) 0)
      else none

/-- Python `int()` on a whitespace-free token. -/
def pyInt (s : String) : Option Int :=
  match s.toList with
  | '+' :: ds => (digitsToNat ds).map Int.ofNat
  | '-' :: ds => (digitsToNat ds).map fun n => -(n : Int)
  | ds => (digitsToNat ds).map Int.ofNat

/-! ### JSON parsing (`json.loads`)

The input token contains no whitespace (it is a `str.split()` output),
so no whitespace skipping is performed.  Numeric literals are parsed
as integers; a line whose JSON field carries a float does not arise in
the modem protocol and is treated as unparseable.  `NaN`/`Infinity`
extensions are likewise not modelled. -/

/-- Value of a hex digit. -/
def hexDigitVal (c : Char) : Option Nat :=
  if c.isDigit then some (c.toNat - 48)
  else if 'a' ≤ c && c ≤ 'f' then some (c.toNat - 87)
  else if 'A' ≤ c && c ≤ 'F' then some (c.toNat - 55)
  else none

/-- Parse the body of a JSON string literal (after the opening quote),
returning the accumulated characters and the remaining input. -/
def parseStringBody : List Char → List Char → Option (String × List Char)
  | [], _ => none
  | c :: rest, acc =>
      if c = '"' then some (String.mk acc.reverse, rest)
      else if c = '\\' then
        match rest with
        | '"' :: r => parseStringBody r ('"' :: acc)
        | '\\' :: r => parseStringBody r ('\\' :: acc)
        | '/' :: r => parseStringBody r ('/' :: acc)
        | 'b' :: r => parseStringBody r (Char.ofNat 8 :: acc)
        | 'f' :: r => parseStringBody r (Char.ofNat 12 :: acc)
        | 'n' :: r => parseStringBody r (Char.ofNat 10 :: acc)
        | 'r' :: r => parseStringBody r (Char.ofNat 13 :: acc)
        | 't' :: r => parseStringBody r (Char.ofNat 9 :: acc)
        | 'u' :: h1 :: h2 :: h3 :: h4 :: r =>
            match hexDigitVal h1, hexDigitVal h2, hexDigitVal h3, hexDigitVal h4 with
            | some a, some b, some c2, some d =>
                parseStringBody r (Char.ofNat (((a * 16 + b) * 16 + c2) * 16 + d) :: acc)
            | _, _, _, _ => none
        | _ => none
      else if c.toNat < 32 then none
      else parseStringBody rest (c :: acc)

/-- Parse a JSON integer literal: optional minus, then `0` or a
nonzero digit followed by digits.  Fails when a fraction or exponent
follows (floats are not modelled). -/
def parseJNum (cs : List Char) : Option (Json × List Char) :=
  let core : List Char → Option (Nat × List Char) := fun ds =>
    match ds with
    | [] => none
    | '0' :: r => some (0, r)
    | d :: r =>
        if d.isDigit then
          let digits := d :: r.takeWhile Char.isDigit
          some (digits.foldl (fun n c => 10 * n + (c.toNat - 48)) 0, r.dropWhile Char.isDigit)
        else none
  let finish : Nat → Bool → List Char → Option (Json × List Char) := fun n neg r =>
    match r with
    | '.' :: _ => none
    | 'e' :: _ => none
    | 'E' :: _ => none
    | _ => some (.num (if neg then -(n : Int) else (n : Int)), r)
  match cs with
  | '-' :: ds => (core ds).bind fun (n, r) => finish n true r
  | ds => (core ds).bind fun (n, r) => finish n false r

/-- Insert a key into a JSON object under construction, replacing in
place on a duplicate key exactly as a Python dict does. -/
def objInsert : List (String × Json) → String → Json → List (String × Json)
  | [], k, v => [(k, v)]
  | (k2, v2) :: rest, k, v =>
      if k = k2 then (k2, v) :: rest else (k2, v2) :: objInsert rest k v

mutual

/-- Parse one JSON value; `fuel` bounds recursion depth. -/
def parseValue : Nat → List Char → Option (Json × List Char)
  | 0, _ => none
  | _ + 1, [] => none
  | fuel + 1, c :: rest =>
      if c = '"' then
        (parseStringBody rest []).map fun (s, r) => (.str s, r)
      else if c = 't' then
        match rest with
        | 'r' :: 'u' :: 'e' :: r => some (.bool true, r)
        | _ => none
      else if c = 'f' then
        match rest with
        | 'a' :: 'l' :: 's' :: 'e' :: r => some (.bool false, r)
        | _ => none
      else if c = 'n' then
        match rest with
        | 'u' :: 'l' :: 'l' :: r => some (.null, r)
        | _ => none
      else if c = '[' then
        match rest with
        | ']' :: r => some (.arr [], r)
        | _ => (parseArrItems fuel rest).map fun (items, r) => (.arr items, r)
      else if c = Char.ofNat 123 then
        match rest with
        | c2 :: r =>
            if c2 = Char.ofNat 125 then some (.obj [], r)
            else (parseObjItems fuel (c2 :: r) []).map fun (fields, r2) => (.obj fields, r2)
        | [] => none
      else parseJNum (c :: rest)

/-- Parse the comma-separated items of a nonempty JSON array,
including the closing bracket. -/
def parseArrItems : Nat → List Char → Option (List Json × List Char)
  | 0, _ => none
  | fuel + 1, cs =>
      (parseValue fuel cs).bind fun (v, r) =>
        match r with
        | ',' :: r2 => (parseArrItems fuel r2).map fun (items, r3) => (v :: items, r3)
        | ']' :: r2 => some ([v], r2)
        | _ => none

/-- Parse the key/value members of a nonempty JSON object, including
the closing brace; `acc` holds the fields parsed so far. -/
def parseObjItems : Nat → List Char → List (String × Json) → Option (List (String × Json) × List Char)
  | 0, _, _ => none
  | fuel + 1, cs, acc =>
      match cs with
      | '"' :: rest =>
          (parseStringBody rest []).bind fun (k, r) =>
            match r with
            | ':' :: r2 =>
                (parseValue fuel r2).bind fun (v, r3) =>
                  let acc2 := objInsert acc k v
                  match r3 with
                  | ',' :: r4 => parseObjItems fuel r4 acc2
                  | c3 :: r4 =>
                      if c3 = Char.ofNat 125 then some (acc2, r4) else none
                  | [] => none
            | _ => none
      | _ => none

end

/-- Python `json.loads` on a whitespace-free token: the whole token
must parse as a single JSON value. -/
def jsonLoads (s : String) : Option Json :=
  match parseValue (s.length + 1) s.toList with
  | some (j, []) => some j
  | _ => none

/-! ### Response-line tokenization (`process_line`, lines 210-216)

The source loop re-splits the line from the first occurrence of the
first brace-carrying token.  Since `str.split()` tokens contain no
whitespace and tokens before the brace contain no brace, that first
occurrence is the token's own position, so the result coincides with
`line.split()`; the loop is embedded literally nevertheless. -/

/-- The source's token-collection loop over the `str.split()` tokens.
`none` models the (unreachable) `ValueError` from `line.index`. -/
def tokenizeGo (line : List Char) : List (List Char) → Option (List (List Char))
  | [] => some []
  | tok :: rest =>
      if tok.contains (Char.ofNat 123) then
        match indexOfSub line tok with
        | some i => some (pySplit (line.drop i))
        | none => none
      else (tokenizeGo line rest).map (tok :: ·)

/-- `parts` as computed by `process_line` for a given line. -/
def tokenize (line : List Char) : Option (List (List Char)) :=
  tokenizeGo line (pySplit line)

/-- The parsing phase of `process_line` (lines 210-219): tokenize,
ignore the `"\x00"` sentinel, read the integer status code, the target
and the JSON body.  `none` means the line is dropped with the session
unchanged (either the `'\x00'` early return or a caught exception:
`IndexError` on a missing field, `ValueError` from `int()` or a JSON
error from `json.loads`). -/
def parseLine (line : String) : Option (Int × String × Json) :=
  match tokenize line.toList with
  | none => none
  | some [] => none
  | some (p0 :: restParts) =>
      if p0 = [Char.ofNat 0] then none
      else
        match pyInt (String.mk p0) with
        | none => none
        | some code =>
            match restParts with
            | p1 :: p2 :: _ =>
                match jsonLoads (String.mk p2) with
                | none => none
                | some j => some (code, String.mk p1, j)
            | _ => none

/-! ### Base64 (`base64.b64encode` / `base64.b64decode`) -/

/-- The standard base64 alphabet. -/
def b64Alphabet : List Char :=
  "ABCDEFGHIJKLMNOPQRSTUVWXYZabcdefghijklmnopqrstuvwxyz0123456789+/".toList

/-- Character for a 6-bit group. -/
def b64Char (n : Nat) : Char := b64Alphabet.getD n 'A'

/-- 6-bit value of an alphabet character. -/
def b64SexOf (c : Char) : Option Nat :=
  let i := b64Alphabet.indexOf c
  if i < 64 then some i else none

/-- Base64-encode a byte list, three bytes to four characters with
`=` padding. -/
def b64enc : List Nat → List Char
  | [] => []
  | [a] => [b64Char (a / 4), b64Char (a % 4 * 16), '=', '=']
  | [a, b] => [b64Char (a / 4), b64Char (a % 4 * 16 + b / 16), b64Char (b % 16 * 4), '=']
  | a :: b :: c :: rest =>
      b64Char (a / 4) :: b64Char (a % 4 * 16 + b / 16) ::
      b64Char (b % 16 * 4 + c / 64) :: b64Char (c % 64) :: b64enc rest

/-- `base64.b64encode(..).decode("ascii")`. -/
def b64encode (bs : List Nat) : String := String.mk (b64enc bs)

/-- Decode base64 quads; the last quad may carry `=` padding.  A
length not divisible by four or padding anywhere but at the very end
is an error (Python additionally tolerates data after a padding quad;
such inputs do not arise here). -/
def b64dec : List Char → Except Unit (List Nat)
  | [] => .ok []
  | c1 :: c2 :: c3 :: c4 :: rest =>
      if rest.isEmpty && c4 == '=' then
        if c3 == '=' then
          match b64SexOf c1, b64SexOf c2 with
          | some s1, some s2 => .ok [s1 * 4 + s2 / 16]
          | _, _ => .error ()
        else
          match b64SexOf c1, b64SexOf c2, b64SexOf c3 with
          | some s1, some s2, some s3 => .ok [s1 * 4 + s2 / 16, s2 % 16 * 16 + s3 / 4]
          | _, _, _ => .error ()
      else
        match b64SexOf c1, b64SexOf c2, b64SexOf c3, b64SexOf c4 with
        | some s1, some s2, some s3, some s4 =>
            (b64dec rest).map fun bs =>
              (s1 * 4 + s2 / 16) :: (s2 % 16 * 16 + s3 / 4) :: (s3 % 4 * 64 + s4) :: bs
        | _, _, _, _ => .error ()
  | _ => .error ()

/-- Python `base64.b64decode` on a string: characters outside the
alphabet and padding are discarded first (default `validate=False`),
then the quads are decoded. -/
def b64decodePy (s : String) : Except Unit (List Nat) :=
  b64dec (s.toList.filter fun c => c == '=' || decide (b64Alphabet.indexOf c < 64))

/-! ### Hex formatting used by `encode_message` -/

/-- Lower-case hex digit. -/
def hexDigitChar (n : Nat) : Char := "0123456789abcdef".toList.getD n '0'

/-- `f"{crc:04x}"` for a 16-bit value. -/
def toHex4 (n : Nat) : List Char :=
  [hexDigitChar (n / 4096 % 16), hexDigitChar (n / 256 % 16),
   hexDigitChar (n / 16 % 16), hexDigitChar (n % 16)]

/-- `bytes.fromhex` on the (always well-formed) 4-digit string. -/
def bytesFromHexPairs : List Char → List Nat
  | c1 :: c2 :: rest =>
      ((hexDigitVal c1).getD 0 * 16 + (hexDigitVal c2).getD 0) :: bytesFromHexPairs rest
  | _ => []

/-! ### CRC-16 (`Modem9704.CRC16_TABLE`, `calculate_crc`) -/

/-- The 256-entry lookup table, verbatim from the source. -/
def CRC16_TABLE : List Nat := [
  0x0000, 0x1021, 0x2042, 0x3063, 0x4084, 0x50a5, 0x60c6, 0x70e7,
  0x8108, 0x9129, 0xa14a, 0xb16b, 0xc18c, 0xd1ad, 0xe1ce, 0xf1ef,
  0x1231, 0x0210, 0x3273, 0x2252, 0x52b5, 0x4294, 0x72f7, 0x62d6,
  0x9339, 0x8318, 0xb37b, 0xa35a, 0xd3bd, 0xc39c, 0xf3ff, 0xe3de,
  0x2462, 0x3443, 0x0420, 0x1401, 0x64e6, 0x74c7, 0x44a4, 0x5485,
  0xa56a, 0xb54b, 0x8528, 0x9509, 0xe5ee, 0xf5cf, 0xc5ac, 0xd58d,
  0x3653, 0x2672, 0x1611, 0x0630, 0x76d7, 0x66f6, 0x5695, 0x46b4,
  0xb75b, 0xa77a, 0x9719, 0x8738, 0xf7df, 0xe7fe, 0xd79d, 0xc7bc,
  0x48c4, 0x58e5, 0x6886, 0x78a7, 0x0840, 0x1861, 0x2802, 0x3823,
  0xc9cc, 0xd9ed, 0xe98e, 0xf9af, 0x8948, 0x9969, 0xa90a, 0xb92b,
  0x5af5, 0x4ad4, 0x7ab7, 0x6a96, 0x1a71, 0x0a50, 0x3a33, 0x2a12,
  0xdbfd, 0xcbdc, 0xfbbf, 0xeb9e, 0x9b79, 0x8b58, 0xbb3b, 0xab1a,
  0x6ca6, 0x7c87, 0x4ce4, 0x5cc5, 0x2c22, 0x3c03, 0x0c60, 0x1c41,
  0xedae, 0xfd8f, 0xcdec, 0xddcd, 0xad2a, 0xbd0b, 0x8d68, 0x9d49,
  0x7e97, 0x6eb6, 0x5ed5, 0x4ef4, 0x3e13, 0x2e32, 0x1e51, 0x0e70,
  0xff9f, 0xefbe, 0xdfdd, 0xcffc, 0xbf1b, 0xaf3a, 0x9f59, 0x8f78,
  0x9188, 0x81a9, 0xb1ca, 0xa1eb, 0xd10c, 0xc12d, 0xf14e, 0xe16f,
  0x1080, 0x00a1, 0x30c2, 0x20e3, 0x5004, 0x4025, 0x7046, 0x6067,
  0x83b9, 0x9398, 0xa3fb, 0xb3da, 0xc33d, 0xd31c, 0xe37f, 0xf35e,
  0x02b1, 0x1290, 0x22f3, 0x32d2, 0x4235, 0x5214, 0x6277, 0x7256,
  0xb5ea, 0xa5cb, 0x95a8, 0x8589, 0xf56e, 0xe54f, 0xd52c, 0xc50d,
  0x34e2, 0x24c3, 0x14a0, 0x0481, 0x7466, 0x6447, 0x5424, 0x4405,
  0xa7db, 0xb7fa, 0x8799, 0x97b8, 0xe75f, 0xf77e, 0xc71d, 0xd73c,
  0x26d3, 0x36f2, 0x0691, 0x16b0, 0x6657, 0x7676, 0x4615, 0x5634,
  0xd94c, 0xc96d, 0xf90e, 0xe92f, 0x99c8, 0x89e9, 0xb98a, 0xa9ab,
  0x5844, 0x4865, 0x7806, 0x6827, 0x18c0, 0x08e1, 0x3882, 0x28a3,
  0xcb7d, 0xdb5c, 0xeb3f, 0xfb1e, 0x8bf9, 0x9bd8, 0xabbb, 0xbb9a,
  0x4a75, 0x5a54, 0x6a37, 0x7a16, 0x0af1, 0x1ad0, 0x2ab3, 0x3a92,
  0xfd2e, 0xed0f, 0xdd6c, 0xcd4d, 0xbdaa, 0xad8b, 0x9de8, 0x8dc9,
  0x7c26, 0x6c07, 0x5c64, 0x4c45, 0x3ca2, 0x2c83, 0x1ce0, 0x0cc1,
  0xef1f, 0xff3e, 0xcf5d, 0xdf7c, 0xaf9b, 0xbfba, 0x8fd9, 0x9ff8,
  0x6e17, 0x7e36, 0x4e55, 0x5e74, 0x2e93, 0x3eb2, 0x0ed1, 0x1ef0]

/-- One step of the table-driven loop body of `calculate_crc`. -/
def crcTableStep (crc data : Nat) : Nat :=
  ((crc <<< 8) ^^^ CRC16_TABLE.getD (((crc >>> 8) ^^^ data) &&& 0xFF) 0) &&& 0xFFFF

/-- `Modem9704.calculate_crc`: table-driven CRC-16 over a byte buffer
(the source's `if buffer:` guard is the identity on an empty loop). -/
def calculate_crc (buffer : List Nat) (initial_crc : Nat) : Nat :=
  buffer.foldl crcTableStep (initial_crc &&& 0xFFFF)

/-- Reference bitwise CRC-16-CCITT round: shift left once, reducing by
the polynomial 0x1021 when the top bit was set. -/
def crcShiftRound (crc : Nat) : Nat :=
  if crc.testBit 15 then ((crc <<< 1) ^^^ 0x1021) &&& 0xFFFF
  else (crc <<< 1) &&& 0xFFFF

/-- Eight reference rounds. -/
def crcRounds8 (c : Nat) : Nat :=
  crcShiftRound (crcShiftRound (crcShiftRound (crcShiftRound
    (crcShiftRound (crcShiftRound (crcShiftRound (crcShiftRound c)))))))

/-- Reference bitwise CRC-16-CCITT byte step: XOR the byte into the
high half, then run eight polynomial rounds. -/
def crcByteRef (crc b : Nat) : Nat := crcRounds8 (crc ^^^ (b <<< 8))

/-- Reference bitwise CRC-16-CCITT (polynomial 0x1021) of a buffer. -/
def crc16_ref (buffer : List Nat) (seed : Nat) : Nat :=
  buffer.foldl crcByteRef (seed &&& 0xFFFF)

/-- Big-endian 2-byte rendering of a 16-bit value
(`int.to_bytes(2, byteorder="big")`). -/
def bytesBE2 (n : Nat) : List Nat := [n / 256, n % 256]

/-! ### `encode_message` / `decode_message` -/

/-- `Modem9704.encode_message`: append the CRC (via the hex-string
round trip of the source) and base64-encode. -/
def encode_message (message : List Nat) : String :=
  let crc := calculate_crc message 0
  let crc_bytes := bytesFromHexPairs (toHex4 crc)
  b64encode (message ++ crc_bytes)

/-- `Modem9704.decode_message`: base64-decode, split the final two
bytes off as the received checksum and recompute the checksum over the
rest.  An undecodable argument raises, which `process_line` catches. -/
def decode_message (encoded_message : String) :
    Except Unit (List Nat × List Nat × List Nat) :=
  match b64decodePy encoded_message with
  | .error e => .error e
  | .ok decoded =>
      let crc_received := decoded.drop (decoded.length - 2)
      let message_data := decoded.take (decoded.length - 2)
      let crc_calculated := calculate_crc message_data 0
      .ok (message_data, crc_received, bytesBE2 crc_calculated)

/-! ### Modem session state -/

/-- `ModemState`: the bring-up states, in the order of the source
enumeration. -/
inductive ModemState where
  | BOOTED1 | BOOTED2 | BOOTED3
  | API_CONFIGURED | SIM_CONFIGURED | OPERATIONAL_CONFIGURED
  | CONSTELLATION_FIRST_VISIBLE
deriving DecidableEq, Repr

/-- Position of a bring-up state in the progression order. -/
def stateRank : ModemState → Nat
  | .BOOTED1 => 0
  | .BOOTED2 => 1
  | .BOOTED3 => 2
  | .API_CONFIGURED => 3
  | .SIM_CONFIGURED => 4
  | .OPERATIONAL_CONFIGURED => 5
  | .CONSTELLATION_FIRST_VISIBLE => 6

/-- The mutable session fields of `Modem9704` that the protocol logic
touches (the serial handle, port settings and the `running`/
`const_visible` flags never interact with the claims' logic).
`message_id`, `bars` and `raw_topic_id` hold whatever JSON value the
modem sent, as in the source. -/
structure MState where
  modem_state : ModemState
  raw_topic_id : Option Json
  message_id : Json
  request_reference : Nat
  cur_message : Option String
  txbuffer : Option (List Nat)
  bars : Json

/-- The `__init__` values of the embedded fields. -/
def initialMState : MState where
  modem_state := .BOOTED1
  raw_topic_id := none
  message_id := .num 0
  request_reference := 0
  cur_message := none
  txbuffer := none
  bars := .num 0

/-- Commands written to the serial port (`send_get_command` /
`send_put_command`), with the arguments the claims speak about. -/
inductive Command where
  | get (target : String)
  | putApiVersion
  | putSimConfig
  | putOperationalState
  | putOriginate (topic_id : Option Json) (message_length : Nat) (request_reference : Nat)
  | putSegment (topic_id : Option Json) (message_id : Json) (segment_length : Nat) (data : String)

/-- The target name a command addresses (the first argument of
`send_get_command` / `send_put_command`, which is also recorded in
`cur_message`). -/
def cmdTarget : Command → String
  | .get t => t
  | .putApiVersion => "apiVersion"
  | .putSimConfig => "simConfig"
  | .putOperationalState => "operationalState"
  | .putOriginate _ _ _ => "messageOriginate"
  | .putSegment _ _ _ _ => "messageOriginateSegment"

/-- Python truthiness of `self.raw_topic_id` (`None` or a falsy JSON
value fail the `if not self.raw_topic_id:` tests). -/
def rawTopicTruthy : Option Json → Bool
  | none => false
  | some j => pyTruthy j

/-- Python truthiness of `self.txbuffer` (`None` and the empty byte
string are both falsy). -/
def txTruthy : Option (List Nat) → Bool
  | none => false
  | some bs => !bs.isEmpty

/-- `Modem9704.send_message` on a byte payload: the result flag, the
state after the call and the commands written.  Mirrors the source
guards in order: no RAW topic, no signal bars, a truthy pending
buffer; otherwise bump the request reference, store the payload and
issue the `messageOriginate` PUT (which records itself in
`cur_message`). -/
def send_message (s : MState) (message : List Nat) : Bool × MState × List Command :=
  if !rawTopicTruthy s.raw_topic_id then (false, s, [])
  else if pyEq s.bars (.num 0) then (false, s, [])
  else if txTruthy s.txbuffer then (false, s, [])
  else
    let ref := s.request_reference + 1
    (true,
     { s with request_reference := ref, txbuffer := some message,
              cur_message := some "messageOriginate" },
     [Command.putOriginate s.raw_topic_id (message.length + 2) ref])

/-- Scan of `provisioning` entries: Python's
`any(topic["topic_name"] == "RAW" for topic in ...)` followed by
`next(topic["topic_id"] for ...)`.  A non-dict entry or a missing
`topic_name` before the first match raises; on the first match the
entry's `topic_id` is returned (missing key raises). -/
def findRawTopic : List Json → Except Unit (Option Json)
  | [] => .ok none
  | .obj kvs :: rest =>
      match jlookup "topic_name" kvs with
      | none => .error ()
      | some tn =>
          if pyEq tn (.str "RAW") then
            match jlookup "topic_id" kvs with
            | none => .error ()
            | some tid => .ok (some tid)
          else findRawTopic rest
  | _ :: _ => .error ()

/-- The acknowledgement block of `process_line` (lines 227-231):
clear the outstanding command when the response target matches it,
otherwise only log. -/
def ackUpdate (s : MState) (target : String) : MState :=
  if s.cur_message = some target then { s with cur_message := none } else s

/-- The response-dispatch chain of `process_line` (lines 233-297),
applied after parsing and acknowledgement.  `Except`-style error
results inside a branch model the Python exceptions that the
surrounding `try` catches: processing stops there, keeping the
mutations already made. -/
def dispatch (s : MState) (code : Int) (target : String) (body : Json) :
    MState × List Command :=
    -- status 400: API version not selected (lines 233-236)
    if code = 400 then ({ s with modem_state := .BOOTED2 }, [])
    else if target == "apiVersion" && (code == 200 || code == 299 || code == 402) then
      match pyGet body "active_version" (.obj []) with
      | .error _ => (s, [])
      | .ok av =>
        match pyGet av "major" (.num 0) with
        | .error _ => (s, [])
        | .ok mj =>
          match asCmpNum mj with
          | .error _ => (s, [])
          | .ok n =>
              if n ≥ 1 then ({ s with modem_state := .BOOTED3 }, [])
              else ({ s with modem_state := .BOOTED2 }, [])
    else if target == "hwInfo" && (code == 200 || code == 299 || code == 402) then
      ({ s with modem_state := .API_CONFIGURED }, [])
    else if target == "simConfig" && (code == 200 || code == 299 || code == 402) then
      ({ s with modem_state := .SIM_CONFIGURED }, [])
    else if target == "operationalState" &&
        (code == 200 || code == 299 || code == 402 || code == 406) then
      ({ s with modem_state := .OPERATIONAL_CONFIGURED }, [])
    else if target == "constellationState" && (code == 200 || code == 299) then
      match pyGet body "constellation_visible" (.bool false) with
      | .error _ => (s, [])
      | .ok vis =>
          if pyTruthy vis then
            match pyGet body "signal_bars" (.num 0) with
            | .error _ => (s, [])  -- unreachable: body is a dict here
            | .ok sb =>
              ({ s with modem_state := .CONSTELLATION_FIRST_VISIBLE, bars := sb }, [])
          else
            match pyGet body "signal_bars" (.num 0) with
            | .error _ => (s, [])  -- unreachable: body is a dict here
            | .ok sb => ({ s with bars := sb }, [])
    else if target == "messageProvisioning" && (code == 200 || code == 299) then
      match pyGet body "provisioning" (.arr []) with
      | .error _ => (s, [])
      | .ok prov =>
          if pyTruthy prov then
            match prov with
            | .arr items =>
                match findRawTopic items with
                | .error _ => (s, [])
                | .ok none => (s, [])
                | .ok (some tid) => ({ s with raw_topic_id := some tid }, [])
            | _ => (s, [])  -- iterating a truthy non-list raises
          else (s, [])
    else if target == "messageOriginate" && (code == 200 || code == 299) then
      match pyGet body "request_reference" (.num s.request_reference) with
      | .error _ => (s, [])
      | .ok rrx =>
          match pyGet body "message_response" (.str "") with
          | .error _ => (s, [])  -- unreachable: body is a dict here
          | .ok mresp =>
              if pyEq (.num s.request_reference) rrx && pyEq mresp (.str "message_accepted") then
                let s := { s with message_id := ((jlookup "message_id"
                  (match body with | .obj kvs => kvs | _ => [])).getD (.num 0)) }
                match s.txbuffer with
                | none => (s, [])  -- encode_message(None) raises after message_id is set
                | some buf =>
                    let data := encode_message buf
                    let len := buf.length + 2
                    ({ s with cur_message := some "messageOriginateSegment" },
                     [Command.putSegment s.raw_topic_id s.message_id len data])
              else (s, [])
    else if target == "messageOriginateStatus" && (code == 200 || code == 299) then
      match pyGet body "final_mo_status" (.str "") with
      | .error _ => (s, [])  -- non-dict body raises before the buffer is cleared
      | .ok _ => ({ s with txbuffer := none }, [])
    else if target == "messageTerminateSegment" && code == 299 then
      match pyGet body "message_id" (.num 0) with
      | .error _ => (s, [])
      | .ok _ =>
          match pyGet body "data" (.str "") with
          | .error _ => (s, [])  -- unreachable: body is a dict here
          | .ok d =>
              match d with
              | .str ds =>
                  match decode_message ds with
                  | .error _ => (s, [])
                  | .ok (message_data, crc_received, crc_calculated) =>
                      if crc_received ≠ crc_calculated then (s, [])
                      else if rawTopicTruthy s.raw_topic_id then
                        let decoded := String.mk (decodeReplace message_data)
                        match encodeAscii ("Ping back " ++ decoded) with
                        | .error _ => (s, [])  -- UnicodeEncodeError inside send_message
                        | .ok payload =>
                            ((send_message s payload).2.1, (send_message s payload).2.2)
                      else (s, [])
              | _ => (s, [])  -- b64decode on a non-string raises
    else (s, [])

/-- `Modem9704.process_line`: parse the line, acknowledge the
outstanding command when the targets coincide, then run the response
dispatch chain. -/
def process_line (s : MState) (line : String) : MState × List Command :=
  match parseLine line with
  | none => (s, [])
  | some (code, target, body) => dispatch (ackUpdate s target) code target body

/-- One command-issuing step of `Modem9704.initialize` (lines
333-345): with no outstanding command, issue the GET/PUT for the
current bring-up state; otherwise do nothing. -/
def initStep (s : MState) : MState × List Command :=
  match s.cur_message with
  | some _ => (s, [])
  | none =>
    match s.modem_state with
    | .BOOTED1 => ({ s with cur_message := some "apiVersion" }, [Command.get "apiVersion"])
    | .BOOTED2 => ({ s with cur_message := some "apiVersion" }, [Command.putApiVersion])
    | .BOOTED3 => ({ s with cur_message := some "hwInfo" }, [Command.get "hwInfo"])
    | .API_CONFIGURED => ({ s with cur_message := some "simConfig" }, [Command.putSimConfig])
    | .SIM_CONFIGURED =>
        ({ s with cur_message := some "operationalState" }, [Command.putOperationalState])
    | .OPERATIONAL_CONFIGURED => (s, [])
    | .CONSTELLATION_FIRST_VISIBLE =>
        if rawTopicTruthy s.raw_topic_id then (s, [])
        else ({ s with cur_message := some "messageProvisioning" },
              [Command.get "messageProvisioning"])

/-! ### `read_serial`: buffering and CR-splitting

`read_serial` appends the freshly read bytes to `rxbuffer` and, when a
CR is present, splits on every CR, keeps the trailing fragment and
hands each nonempty stripped decoded segment to `process_line`.  The
model below factors out the segmentation: `readStep` returns the list
of delivered lines instead of invoking the handler, which is all the
segmentation claims speak about. -/

/-- Split a byte list at every CR (byte 13): the complete segments in
order, and the trailing fragment after the last CR.  This is
`buffer.split(b"\r")` with the last element separated off, matching
lines 198-200 of the source. -/
def splitCR : List Nat → List (List Nat) × List Nat
  | [] => ([], [])
  | b :: rest =>
      if b = 13 then ([] :: (splitCR rest).1, (splitCR rest).2)
      else
        match splitCR rest with
        | ([], t) => ([], b :: t)
        | (seg :: more, t) => ((b :: seg) :: more, t)

/-- The text delivered for one raw segment: decode with replacement,
strip, keep as a string. -/
def segText (seg : List Nat) : String := String.mk (pyStrip (decodeReplace seg))

/-- One `read_serial` call: append the chunk, split on CR when one is
present; the delivered lines are the nonempty stripped decodings of
the complete segments (`if line:` drops the empty ones), and the new
buffer is the trailing fragment. -/
def readStep (rxbuffer chunk : List Nat) : List String × List Nat :=
  let buf := rxbuffer ++ chunk
  if buf.contains 13 then
    let (segs, tail) := splitCR buf
    ((segs.map segText).filter (fun l => l ≠ ""), tail)
  else ([], buf)

/-- Feed a sequence of chunks through successive `read_serial` calls,
concatenating the delivered lines. -/
def feedChunks (rxbuffer : List Nat) : List (List Nat) → List String × List Nat
  | [] => ([], rxbuffer)
  | chunk :: rest =>
      let (lines, buf) := readStep rxbuffer chunk
      let (moreLines, finalBuf) := feedChunks buf rest
      (lines ++ moreLines, finalBuf)

/-! ### Spec-side predicates used to state the claims -/

/-- The bring-up state a response sets, as a function of the response
alone: `400` demotes to `BOOTED2` and each recognized bring-up
response sets the fixed state of its step; `none` when the response
leaves the bring-up state unchanged (including evaluation errors). -/
def stateOfDispatch (code : Int) (target : String) (body : Json) : Option ModemState :=
    if code = 400 then some .BOOTED2
    else if target == "apiVersion" && (code == 200 || code == 299 || code == 402) then
      match pyGet body "active_version" (.obj []) with
      | .error _ => none
      | .ok av =>
        match pyGet av "major" (.num 0) with
        | .error _ => none
        | .ok mj =>
          match asCmpNum mj with
          | .error _ => none
          | .ok n => if n ≥ 1 then some .BOOTED3 else some .BOOTED2
    else if target == "hwInfo" && (code == 200 || code == 299 || code == 402) then
      some .API_CONFIGURED
    else if target == "simConfig" && (code == 200 || code == 299 || code == 402) then
      some .SIM_CONFIGURED
    else if target == "operationalState" &&
        (code == 200 || code == 299 || code == 402 || code == 406) then
      some .OPERATIONAL_CONFIGURED
    else if target == "constellationState" && (code == 200 || code == 299) then
      match pyGet body "constellation_visible" (.bool false) with
      | .error _ => none
      | .ok vis => if pyTruthy vis then some .CONSTELLATION_FIRST_VISIBLE else none
    else none

/-- `stateOfDispatch` applied to a parsed line. -/
def stateOfLine (line : String) : Option ModemState :=
  match parseLine line with
  | none => none
  | some (code, target, body) => stateOfDispatch code target body

/-- Whether a JSON value is an object (a Python dict). -/
def Json.isObj : Json → Bool
  | .obj _ => true
  | _ => false

/-- A `messageOriginateStatus` response with status 200 or 299 and a
dict body: exactly the responses whose dispatch reaches the
`self.txbuffer = None` statement. -/
def clearsTxBool (code : Int) (target : String) (body : Json) : Bool :=
  (target == "messageOriginateStatus") && (code == 200 || code == 299) && body.isObj

/-- A line whose processing clears the outbound buffer. -/
def isMoStatusLine (line : String) : Bool :=
  match parseLine line with
  | some (code, target, body) => clearsTxBool code target body
  | none => false

/-! ### Claim C7: `calculate_crc` is the bitwise CRC-16-CCITT -/

theorem shiftLeft_xor_distrib (x y n : Nat) :
    (x ^^^ y) <<< n = x <<< n ^^^ y <<< n := by
  apply Nat.eq_of_testBit_eq
  intro j
  by_cases h : n ≤ j <;>
    simp [Nat.testBit_shiftLeft, Nat.testBit_xor, h, ge_iff_le]

theorem xor_left_comm' (a b c : Nat) : a ^^^ (b ^^^ c) = b ^^^ (a ^^^ c) := by
  rw [← Nat.xor_assoc, Nat.xor_comm a b, Nat.xor_assoc]

theorem crcShiftRound_eq (z : Nat) :
    crcShiftRound z =
      ((z <<< 1) ^^^ (if z.testBit 15 then 0x1021 else 0)) &&& 0xFFFF := by
  unfold crcShiftRound
  by_cases h : z.testBit 15 <;> simp [h]

theorem crcShiftRound_xor (x y : Nat) :
    crcShiftRound (x ^^^ y) = crcShiftRound x ^^^ crcShiftRound y := by
  rw [crcShiftRound_eq, crcShiftRound_eq x, crcShiftRound_eq y,
      ← Nat.and_xor_distrib_right, Nat.testBit_xor, shiftLeft_xor_distrib]
  congr 1
  by_cases hx : x.testBit 15 <;> by_cases hy : y.testBit 15 <;>
    simp [hx, hy, Nat.xor_assoc, Nat.xor_comm, xor_left_comm', Nat.xor_self, Nat.xor_zero]

theorem crcRounds8_xor (x y : Nat) :
    crcRounds8 (x ^^^ y) = crcRounds8 x ^^^ crcRounds8 y := by
  simp [crcRounds8, crcShiftRound_xor]

theorem crcShiftRound_lt (z : Nat) : crcShiftRound z < 65536 := by
  unfold crcShiftRound
  split
  · exact lt_of_le_of_lt Nat.and_le_right (by norm_num)
  · exact lt_of_le_of_lt Nat.and_le_right (by norm_num)

theorem crcRounds8_lt (z : Nat) : crcRounds8 z < 65536 := by
  unfold crcRounds8
  exact crcShiftRound_lt _

theorem crcTableStep_lt (crc b : Nat) : crcTableStep crc b < 65536 := by
  unfold crcTableStep
  exact lt_of_le_of_lt Nat.and_le_right (by norm_num)

set_option maxRecDepth 100000

/-- Eight reference rounds on a value below 256 never meet the top
bit: they are a plain shift by 8. -/
theorem crcRounds8_low : ∀ l < 256, crcRounds8 l = l <<< 8 := by decide

/-- Each table entry is the eight reference rounds of its index placed
in the high byte. -/
theorem crc16_table_rounds : ∀ i < 256, CRC16_TABLE.getD i 0 = crcRounds8 (i <<< 8) := by
  decide

/-- Splitting the XOR-ed byte into the high half and the low byte of
the running value. -/
theorem xor_byte_decomp (crc b : Nat) :
    crc ^^^ (b <<< 8) = (((crc >>> 8) ^^^ b) <<< 8) ^^^ (crc % 256) := by
  apply Nat.eq_of_testBit_eq
  intro j
  by_cases h : 8 ≤ j
  · have hl : crc % 256 < 2 ^ j :=
      lt_of_lt_of_le (Nat.mod_lt _ (by norm_num))
        (le_trans (by norm_num) (Nat.pow_le_pow_right (by norm_num) h))
    simp [Nat.testBit_xor, Nat.testBit_shiftLeft, Nat.testBit_shiftRight,
          Nat.testBit_eq_false_of_lt hl, h, ge_iff_le, Nat.add_sub_cancel' h]
  · have hj : j < 8 := Nat.lt_of_not_le h
    have hmod : (crc % 256).testBit j = crc.testBit j := by
      have h256 : (256 : Nat) = 2 ^ 8 := rfl
      rw [h256, Nat.testBit_mod_two_pow]
      simp [hj]
    simp [Nat.testBit_xor, Nat.testBit_shiftLeft, h, ge_iff_le, hmod]

/-- The table-driven step of `calculate_crc` computes exactly one
reference byte step, for a 16-bit running value and a byte. -/
theorem crcTableStep_eq_ref (crc b : Nat) (hc : crc < 65536) (hb : b < 256) :
    crcTableStep crc b = crcByteRef crc b := by
  have h256 : (256 : Nat) = 2 ^ 8 := rfl
  have hh : crc >>> 8 < 256 := by
    rw [Nat.shiftRight_eq_div_pow]
    omega
  have hu : (crc >>> 8) ^^^ b < 256 := by
    rw [h256] at hh hb ⊢
    exact Nat.xor_lt_two_pow hh hb
  have hidx : ((crc >>> 8) ^^^ b) &&& 0xFF = (crc >>> 8) ^^^ b := by
    have h255 : (0xFF : Nat) = 2 ^ 8 - 1 := rfl
    rw [h255, Nat.and_pow_two_sub_one_eq_mod, Nat.mod_eq_of_lt hu]
  have htab : CRC16_TABLE.getD ((crc >>> 8) ^^^ b) 0 =
      crcRounds8 (((crc >>> 8) ^^^ b) <<< 8) := crc16_table_rounds _ hu
  have htablt : CRC16_TABLE.getD ((crc >>> 8) ^^^ b) 0 < 65536 := by
    rw [htab]; exact crcRounds8_lt _
  have htabmask : CRC16_TABLE.getD ((crc >>> 8) ^^^ b) 0 &&& 0xFFFF =
      CRC16_TABLE.getD ((crc >>> 8) ^^^ b) 0 := by
    have hm : (0xFFFF : Nat) = 2 ^ 16 - 1 := rfl
    rw [hm, Nat.and_pow_two_sub_one_eq_mod, Nat.mod_eq_of_lt htablt]
  have hshift : (crc <<< 8) &&& 0xFFFF = (crc % 256) <<< 8 := by
    have hm : (0xFFFF : Nat) = 2 ^ 16 - 1 := rfl
    rw [hm, Nat.and_pow_two_sub_one_eq_mod, Nat.shiftLeft_eq, Nat.shiftLeft_eq]
    show crc * 2 ^ 8 % 2 ^ 16 = crc % 256 * 2 ^ 8
    omega
  unfold crcTableStep crcByteRef
  rw [hidx, Nat.and_xor_distrib_right, htabmask, hshift,
      xor_byte_decomp crc b, crcRounds8_xor,
      crcRounds8_low _ (Nat.mod_lt _ (by norm_num)), htab, Nat.xor_comm]

/-- The two folds agree along a byte buffer from any 16-bit start. -/
theorem foldl_table_eq_ref (buf : List Nat) :
    ∀ crc, crc < 65536 → (∀ b ∈ buf, b < 256) →
      buf.foldl crcTableStep crc = buf.foldl crcByteRef crc := by
  induction buf with
  | nil => intro crc _ _; rfl
  | cons b rest ih =>
      intro crc hc hb
      have hb0 : b < 256 := hb b (List.mem_cons_self ..)
      have hrest : ∀ x ∈ rest, x < 256 := fun x hx => hb x (List.mem_cons_of_mem _ hx)
      simp only [List.foldl_cons]
      rw [crcTableStep_eq_ref crc b hc hb0]
      exact ih (crcByteRef crc b) (crcRounds8_lt _) hrest

/-- `calculate_crc` always returns a 16-bit value. -/
theorem calculate_crc_lt (buf : List Nat) (seed : Nat) :
    calculate_crc buf seed < 65536 := by
  unfold calculate_crc
  have step : ∀ (l : List Nat) (crc : Nat), crc < 65536 →
      l.foldl crcTableStep crc < 65536 := by
    intro l
    induction l with
    | nil => intro crc h; exact h
    | cons b rest ih =>
        intro crc _
        simp only [List.foldl_cons]
        exact ih _ (crcTableStep_lt _ _)
  exact step buf _ (lt_of_le_of_lt Nat.and_le_right (by norm_num))

/-- C7: for every byte buffer and every seed, the table-driven
`calculate_crc` equals the bitwise CRC-16-CCITT (polynomial 0x1021)
reference, its result fits in 16 bits, and every entry `i` of
`CRC16_TABLE` is the bitwise CRC-16 of the single byte `i`. -/
theorem c7_calculate_crc_is_ccitt (buffer : List Nat) (seed : Nat)
    (hbytes : ∀ b ∈ buffer, b < 256) :
    calculate_crc buffer seed = crc16_ref buffer seed ∧
    calculate_crc buffer seed < 65536 ∧
    (∀ i < 256, CRC16_TABLE.getD i 0 = crc16_ref [i] 0) := by
  refine ⟨?_, calculate_crc_lt _ _, ?_⟩
  · unfold calculate_crc crc16_ref
    exact foldl_table_eq_ref buffer _ (lt_of_le_of_lt Nat.and_le_right (by norm_num)) hbytes
  · intro i hi
    have href : crc16_ref [i] 0 = crcRounds8 (i <<< 8) := by
      unfold crc16_ref crcByteRef
      simp
    rw [href]
    exact crc16_table_rounds i hi

/-- Witness for C7 at the concrete buffer `[0x12, 0x34]`. -/
theorem c7_calculate_crc_is_ccitt_witness :
    calculate_crc [0x12, 0x34] 0 = crc16_ref [0x12, 0x34] 0 ∧
    CRC16_TABLE.getD 7 0 = crc16_ref [7] 0 :=
  ⟨(c7_calculate_crc_is_ccitt [0x12, 0x34] 0 (by decide)).1,
   (c7_calculate_crc_is_ccitt [0x12, 0x34] 0 (by decide)).2.2 7 (by decide)⟩

/-! ### Claim C1: `decode_message ∘ encode_message` round trip -/

theorem b64SexOf_b64Char : ∀ n < 64, b64SexOf (b64Char n) = some n := by decide

theorem b64Char_ne_pad : ∀ n < 64, (b64Char n == '=') = false := by decide

theorem b64enc_cons_ne_nil (d : Nat) (ds : List Nat) : b64enc (d :: ds) ≠ [] := by
  match ds with
  | [] => simp [b64enc]
  | [e] => simp [b64enc]
  | e :: f :: r => simp [b64enc]

/-- Decoding inverts encoding on byte lists. -/
theorem b64dec_enc : ∀ (bs : List Nat), (∀ b ∈ bs, b < 256) →
    b64dec (b64enc bs) = Except.ok bs
  | [], _ => rfl
  | [a], h => by
      have ha : a < 256 := h a (by simp)
      have h1 : a / 4 < 64 := by omega
      have h2 : a % 4 * 16 < 64 := by omega
      simp [b64enc, b64dec, b64SexOf_b64Char _ h1, b64SexOf_b64Char _ h2]
      omega
  | [a, b], h => by
      have ha : a < 256 := h a (by simp)
      have hb : b < 256 := h b (by simp)
      have h1 : a / 4 < 64 := by omega
      have h2 : a % 4 * 16 + b / 16 < 64 := by omega
      have h3 : b % 16 * 4 < 64 := by omega
      simp [b64enc, b64dec, b64Char_ne_pad _ h3,
            b64SexOf_b64Char _ h1, b64SexOf_b64Char _ h2, b64SexOf_b64Char _ h3]
      omega
  | a :: b :: c :: rest, h => by
      have ha : a < 256 := h a (by simp)
      have hb : b < 256 := h b (by simp)
      have hc : c < 256 := h c (by simp)
      have h1 : a / 4 < 64 := by omega
      have h2 : a % 4 * 16 + b / 16 < 64 := by omega
      have h3 : b % 16 * 4 + c / 64 < 64 := by omega
      have h4 : c % 64 < 64 := by omega
      have ih := b64dec_enc rest (fun x hx => h x (by simp [hx]))
      match rest with
      | [] =>
          simp [b64enc, b64dec, b64Char_ne_pad _ h4,
                b64SexOf_b64Char _ h1, b64SexOf_b64Char _ h2,
                b64SexOf_b64Char _ h3, b64SexOf_b64Char _ h4, Except.map]
          omega
      | d :: ds =>
          rw [show b64enc (a :: b :: c :: d :: ds) =
              b64Char (a / 4) :: b64Char (a % 4 * 16 + b / 16) ::
              b64Char (b % 16 * 4 + c / 64) :: b64Char (c % 64) ::
              b64enc (d :: ds) from rfl]
          rw [show b64dec (b64Char (a / 4) :: b64Char (a % 4 * 16 + b / 16) ::
              b64Char (b % 16 * 4 + c / 64) :: b64Char (c % 64) :: b64enc (d :: ds)) =
              if (b64enc (d :: ds)).isEmpty && (b64Char (c % 64) == '=') then _ else _
              from rfl]
          rw [List.isEmpty_eq_false.mpr (b64enc_cons_ne_nil d ds)]
          simp only [Bool.false_and, if_false]
          rw [b64SexOf_b64Char _ h1, b64SexOf_b64Char _ h2,
              b64SexOf_b64Char _ h3, b64SexOf_b64Char _ h4]
          rw [ih]
          simp [Except.map]
          omega

theorem pred_b64Char (n : Nat) :
    (b64Char n == '=' || decide (b64Alphabet.indexOf (b64Char n) < 64)) = true := by
  by_cases h : n < 64
  · exact (by decide :
      ∀ m < 64, (b64Char m == '=' || decide (b64Alphabet.indexOf (b64Char m) < 64)) = true) n h
  · have hA : b64Char n = 'A' := by
      unfold b64Char
      exact List.getD_eq_default _ _
        (by have hlen : b64Alphabet.length = 64 := rfl; omega)
    rw [hA]
    decide

/-- Every character of an encoding passes the alphabet filter of
`b64decodePy`. -/
theorem b64enc_pred : ∀ (bs : List Nat), ∀ c ∈ b64enc bs,
    (c == '=' || decide (b64Alphabet.indexOf c < 64)) = true
  | [] => by simp [b64enc]
  | [a] => by
      intro ch hch
      simp only [b64enc, List.mem_cons, List.not_mem_nil, or_false] at hch
      rcases hch with h | h | h | h <;> subst h <;>
        first | exact pred_b64Char _ | decide
  | [a, b] => by
      intro ch hch
      simp only [b64enc, List.mem_cons, List.not_mem_nil, or_false] at hch
      rcases hch with h | h | h | h <;> subst h <;>
        first | exact pred_b64Char _ | decide
  | [a, b, c] => by
      intro ch hch
      simp only [b64enc, List.mem_cons, List.not_mem_nil, or_false] at hch
      rcases hch with h | h | h | h <;> subst h <;> exact pred_b64Char _
  | a :: b :: c :: d :: ds => by
      intro ch hch
      rw [show b64enc (a :: b :: c :: d :: ds) =
          b64Char (a / 4) :: b64Char (a % 4 * 16 + b / 16) ::
          b64Char (b % 16 * 4 + c / 64) :: b64Char (c % 64) ::
          b64enc (d :: ds) from rfl] at hch
      simp only [List.mem_cons] at hch
      rcases hch with h | h | h | h | h
      · subst h; exact pred_b64Char _
      · subst h; exact pred_b64Char _
      · subst h; exact pred_b64Char _
      · subst h; exact pred_b64Char _
      · exact b64enc_pred (d :: ds) ch h

/-- `base64.b64decode` inverts `base64.b64encode` on byte payloads. -/
theorem b64decodePy_encode (bs : List Nat) (h : ∀ b ∈ bs, b < 256) :
    b64decodePy (b64encode bs) = Except.ok bs := by
  unfold b64decodePy b64encode
  rw [show (String.mk (b64enc bs)).toList = b64enc bs from rfl,
      List.filter_eq_self.mpr (b64enc_pred bs), b64dec_enc bs h]

theorem hexRound : ∀ d < 16, (hexDigitVal (hexDigitChar d)).getD 0 = d := by decide

/-- The hex-string round trip of `encode_message` produces the
big-endian bytes of the 16-bit checksum. -/
theorem bytesFromHex_toHex4 (n : Nat) (hn : n < 65536) :
    bytesFromHexPairs (toHex4 n) = [n / 256, n % 256] := by
  unfold toHex4
  rw [show bytesFromHexPairs [hexDigitChar (n / 4096 % 16), hexDigitChar (n / 256 % 16),
        hexDigitChar (n / 16 % 16), hexDigitChar (n % 16)] =
      [(hexDigitVal (hexDigitChar (n / 4096 % 16))).getD 0 * 16 +
         (hexDigitVal (hexDigitChar (n / 256 % 16))).getD 0,
       (hexDigitVal (hexDigitChar (n / 16 % 16))).getD 0 * 16 +
         (hexDigitVal (hexDigitChar (n % 16))).getD 0] from rfl]
  rw [hexRound _ (Nat.mod_lt _ (by norm_num)), hexRound _ (Nat.mod_lt _ (by norm_num)),
      hexRound _ (Nat.mod_lt _ (by norm_num)), hexRound _ (Nat.mod_lt _ (by norm_num))]
  have e1 : n / 4096 % 16 * 16 + n / 256 % 16 = n / 256 := by omega
  have e2 : n / 16 % 16 * 16 + n % 16 = n % 256 := by omega
  rw [e1, e2]

/-- C1: for every byte payload, decoding an encoded message returns
the payload together with equal received and computed checksums, both
the 2-byte big-endian CRC-16 of the payload. -/
theorem c1_decode_encode_roundtrip (payload : List Nat)
    (h : ∀ b ∈ payload, b < 256) :
    decode_message (encode_message payload) =
      Except.ok (payload, bytesBE2 (calculate_crc payload 0),
                 bytesBE2 (calculate_crc payload 0)) := by
  have hcrc : calculate_crc payload 0 < 65536 := calculate_crc_lt _ _
  have hall : ∀ b ∈ payload ++ [calculate_crc payload 0 / 256,
      calculate_crc payload 0 % 256], b < 256 := by
    intro b hb
    rcases List.mem_append.mp hb with h1 | h2
    · exact h b h1
    · simp only [List.mem_cons, List.not_mem_nil, or_false] at h2
      rcases h2 with h2 | h2 <;> omega
  have henc : encode_message payload =
      b64encode (payload ++ [calculate_crc payload 0 / 256,
        calculate_crc payload 0 % 256]) := by
    unfold encode_message
    show b64encode (payload ++ bytesFromHexPairs (toHex4 (calculate_crc payload 0))) = _
    rw [bytesFromHex_toHex4 _ hcrc]
  unfold decode_message
  rw [henc, b64decodePy_encode _ hall]
  show Except.ok
      ((payload ++ [calculate_crc payload 0 / 256, calculate_crc payload 0 % 256]).take
        ((payload ++ [calculate_crc payload 0 / 256, calculate_crc payload 0 % 256]).length - 2),
       (payload ++ [calculate_crc payload 0 / 256, calculate_crc payload 0 % 256]).drop
        ((payload ++ [calculate_crc payload 0 / 256, calculate_crc payload 0 % 256]).length - 2),
       bytesBE2 (calculate_crc
        ((payload ++ [calculate_crc payload 0 / 256, calculate_crc payload 0 % 256]).take
          ((payload ++ [calculate_crc payload 0 / 256,
            calculate_crc payload 0 % 256]).length - 2)) 0)) = _
  have hlen : (payload ++ [calculate_crc payload 0 / 256,
      calculate_crc payload 0 % 256]).length - 2 = payload.length := by
    simp
  rw [hlen, List.take_left, List.drop_left]
  rfl

/-- Witness for C1 at the concrete payload `b"Try"`. -/
theorem c1_decode_encode_roundtrip_witness :
    decode_message (encode_message [0x54, 0x72, 0x79]) =
      Except.ok ([0x54, 0x72, 0x79], bytesBE2 (calculate_crc [0x54, 0x72, 0x79] 0),
                 bytesBE2 (calculate_crc [0x54, 0x72, 0x79] 0)) :=
  c1_decode_encode_roundtrip [0x54, 0x72, 0x79] (by decide)

/-! ### Claims C2 and C3: effect of status 400 and monotonicity -/

/-- `send_message` never changes the bring-up state. -/
theorem send_message_modem_state (s : MState) (m : List Nat) :
    (send_message s m).2.1.modem_state = s.modem_state := by
  unfold send_message
  repeat' split
  all_goals rfl

theorem ackUpdate_modem_state (s : MState) (t : String) :
    (ackUpdate s t).modem_state = s.modem_state := by
  unfold ackUpdate
  split <;> rfl

theorem ackUpdate_txbuffer (s : MState) (t : String) :
    (ackUpdate s t).txbuffer = s.txbuffer := by
  unfold ackUpdate
  split <;> rfl

/-- C2 counterexample: from the non-terminal state `BOOTED3`, a line
with status 400 sets `BOOTED2`, not the claimed `Booted1`. -/
theorem c2_booted1_counterexample :
    (process_line { initialMState with modem_state := .BOOTED3 }
        "400 apiVersion \x7b\x7d").1.modem_state ≠ ModemState.BOOTED1 ∧
    (process_line { initialMState with modem_state := .BOOTED3 }
        "400 apiVersion \x7b\x7d").1.modem_state = ModemState.BOOTED2 := by
  refine ⟨?_, rfl⟩
  intro hcontra
  exact ModemState.noConfusion
    (show ModemState.BOOTED2 = ModemState.BOOTED1 from hcontra)

/-- C2 (amended): processing any response line whose parsed status
code is 400 sets the bring-up state to `Booted2` (from every state,
the terminal one included). -/
theorem c2_status400_sets_booted2 (s : MState) (line t : String) (j : Json)
    (hparse : parseLine line = some (400, t, j)) :
    (process_line s line).1.modem_state = ModemState.BOOTED2 := by
  unfold process_line
  rw [hparse]
  rfl

/-- Witness for C2 (amended) at a concrete state and line. -/
theorem c2_status400_sets_booted2_witness :
    (process_line initialMState "400 apiVersion \x7b\x7d").1.modem_state =
      ModemState.BOOTED2 :=
  c2_status400_sets_booted2 initialMState "400 apiVersion \x7b\x7d" "apiVersion"
    (Json.obj []) rfl

/-- C3 counterexample: in state `SIM_CONFIGURED`, a successful
`hwInfo` response (status 200, not 400) regresses the bring-up state
to `API_CONFIGURED`. -/
theorem c3_monotonic_counterexample :
    parseLine "200 hwInfo \x7b\x7d" = some (200, "hwInfo", Json.obj []) ∧
    (process_line { initialMState with modem_state := .SIM_CONFIGURED }
        "200 hwInfo \x7b\x7d").1.modem_state = ModemState.API_CONFIGURED ∧
    stateRank ModemState.API_CONFIGURED < stateRank ModemState.SIM_CONFIGURED := by
  exact ⟨rfl, rfl, by decide⟩

/-- The dispatch chain either keeps the bring-up state or sets it to
the value `stateOfDispatch` computes from the response alone. -/
theorem dispatch_modem_state (s : MState) (code : Int) (target : String) (body : Json) :
    (dispatch s code target body).1.modem_state = s.modem_state ∨
    stateOfDispatch code target body =
      some ((dispatch s code target body).1.modem_state) := by
  unfold dispatch stateOfDispatch
  by_cases h400 : code = 400
  · simp only [if_pos h400]; right; trivial
  · simp only [if_neg h400]
    by_cases hapi : (target == "apiVersion" && (code == 200 || code == 299 || code == 402)) = true
    · simp only [if_pos hapi]
      rcases hav : pyGet body "active_version" (Json.obj []) with e | av
      · simp only [hav]; left; trivial
      · simp only [hav]
        rcases hmj : pyGet av "major" (Json.num 0) with e | mj
        · simp only [hmj]; left; trivial
        · simp only [hmj]
          rcases hn : asCmpNum mj with e | n
          · simp only [hn]; left; trivial
          · simp only [hn]
            by_cases hge : n ≥ 1
            · simp only [if_pos hge]; right; trivial
            · simp only [if_neg hge]; right; trivial
    · simp only [if_neg hapi]
      by_cases hhw : (target == "hwInfo" && (code == 200 || code == 299 || code == 402)) = true
      · simp only [if_pos hhw]; right; trivial
      · simp only [if_neg hhw]
        by_cases hsim : (target == "simConfig" && (code == 200 || code == 299 || code == 402)) = true
        · simp only [if_pos hsim]; right; trivial
        · simp only [if_neg hsim]
          by_cases hop : (target == "operationalState" &&
              (code == 200 || code == 299 || code == 402 || code == 406)) = true
          · simp only [if_pos hop]; right; trivial
          · simp only [if_neg hop]
            by_cases hcon : (target == "constellationState" && (code == 200 || code == 299)) = true
            · simp only [if_pos hcon]
              rcases hvis : pyGet body "constellation_visible" (Json.bool false) with e | vis
              · simp only [hvis]; left; trivial
              · simp only [hvis]
                by_cases htr : pyTruthy vis = true
                · simp only [if_pos htr]
                  rcases hsb : pyGet body "signal_bars" (Json.num 0) with e | sb
                  · simp only [hsb]; left; trivial
                  · simp only [hsb]; right; trivial
                · simp only [if_neg htr]
                  rcases hsb : pyGet body "signal_bars" (Json.num 0) with e | sb
                  · simp only [hsb]; left; trivial
                  · simp only [hsb]; left; trivial
            · simp only [if_neg hcon]
              left
              repeat' split
              all_goals first
                | rfl
                | (exact send_message_modem_state _ _)

/-- C3 (amended): the bring-up state after processing a line is either
unchanged or a value determined by the line alone (`stateOfLine`),
independent of the state before — so a response for an earlier
bring-up step can regress the state. -/
theorem c3_state_determined_by_line (s : MState) (line : String) :
    (process_line s line).1.modem_state = s.modem_state ∨
    stateOfLine line = some ((process_line s line).1.modem_state) := by
  unfold process_line stateOfLine
  rcases hp : parseLine line with _ | ⟨code, target, body⟩
  · left; rfl
  · rcases dispatch_modem_state (ackUpdate s target) code target body with h | h
    · left
      show (dispatch (ackUpdate s target) code target body).1.modem_state = s.modem_state
      rw [h, ackUpdate_modem_state]
    · right
      show stateOfDispatch code target body =
        some ((dispatch (ackUpdate s target) code target body).1.modem_state)
      exact h

/-! ### Claim C4: when the outbound buffer is cleared -/

/-- A matched `(target == a) && codes` condition forces the target
string. -/
theorem target_of_cond {t a : String} {x : Bool} (h : ((t == a) && x) = true) :
    t = a := by
  rw [Bool.and_eq_true] at h
  exact eq_of_beq h.1

theorem pyGet_ok_isObj {j : Json} {k : String} {d v : Json}
    (h : pyGet j k d = .ok v) : j.isObj = true := by
  cases j <;> simp [pyGet, Json.isObj] at h ⊢

theorem pyGet_error_isObj {j : Json} {k : String} {d : Json} {e : Unit}
    (h : pyGet j k d = .error e) : j.isObj = false := by
  cases j <;> simp [pyGet, Json.isObj] at h ⊢

/-- `send_message` never leaves the buffer empty when one was stored:
it either rejects (buffer kept) or stores the new payload. -/
theorem send_message_txbuffer_ne_none (s : MState) (m : List Nat) (b : List Nat)
    (htx : s.txbuffer = some b) : (send_message s m).2.1.txbuffer ≠ none := by
  unfold send_message
  repeat' split
  all_goals simp [htx]

/-- The dispatch chain clears a stored outbound buffer exactly on a
`messageOriginateStatus` response with status 200/299 and a dict body,
regardless of the `message_id` the report carries. -/
theorem dispatch_txbuffer_none_iff (s : MState) (code : Int) (target : String)
    (body : Json) (b : List Nat) (htx : s.txbuffer = some b) :
    ((dispatch s code target body).1.txbuffer = none ↔
      clearsTxBool code target body = true) := by
  unfold dispatch
  by_cases h400 : code = 400
  · subst h400
    simp [clearsTxBool, htx]
  · simp only [if_neg h400]
    by_cases hapi : ((target == "apiVersion") && (code == 200 || code == 299 || code == 402)) = true
    · obtain rfl := target_of_cond hapi
      simp only [if_pos hapi]
      rcases hav : pyGet body "active_version" (Json.obj []) with e | av <;> simp only [hav]
      · simp [clearsTxBool, htx]
      · rcases hmj : pyGet av "major" (Json.num 0) with e | mj <;> simp only [hmj]
        · simp [clearsTxBool, htx]
        · rcases hn : asCmpNum mj with e | n <;> simp only [hn]
          · simp [clearsTxBool, htx]
          · by_cases hge : n ≥ 1
            · simp only [if_pos hge]
              simp [clearsTxBool, htx]
            · simp only [if_neg hge]
              simp [clearsTxBool, htx]
    · simp only [if_neg hapi]
      by_cases hhw : ((target == "hwInfo") && (code == 200 || code == 299 || code == 402)) = true
      · obtain rfl := target_of_cond hhw
        simp only [if_pos hhw]

        simp [clearsTxBool, htx]
      · simp only [if_neg hhw]
        by_cases hsim : ((target == "simConfig") && (code == 200 || code == 299 || code == 402)) = true
        · obtain rfl := target_of_cond hsim
          simp only [if_pos hsim]

          simp [clearsTxBool, htx]
        · simp only [if_neg hsim]
          by_cases hop : ((target == "operationalState") &&
              (code == 200 || code == 299 || code == 402 || code == 406)) = true
          · obtain rfl := target_of_cond hop
            simp only [if_pos hop]

            simp [clearsTxBool, htx]
          · simp only [if_neg hop]
            by_cases hcon : ((target == "constellationState") && (code == 200 || code == 299)) = true
            · obtain rfl := target_of_cond hcon
              simp only [if_pos hcon]
              rcases hvis : pyGet body "constellation_visible" (Json.bool false) with e | vis <;>
                simp only [hvis]
              · simp [clearsTxBool, htx]
              · by_cases htr : pyTruthy vis = true
                · simp only [if_pos htr]
                  rcases hsb : pyGet body "signal_bars" (Json.num 0) with e | sb <;>
                    simp only [hsb] <;> simp [clearsTxBool, htx]
                · simp only [if_neg htr]
                  rcases hsb : pyGet body "signal_bars" (Json.num 0) with e | sb <;>
                    simp only [hsb] <;> simp [clearsTxBool, htx]
            · simp only [if_neg hcon]
              by_cases hprov : ((target == "messageProvisioning") && (code == 200 || code == 299)) = true
              · obtain rfl := target_of_cond hprov
                simp only [if_pos hprov]
                rcases hpr : pyGet body "provisioning" (Json.arr []) with e | prov <;>
                  simp only [hpr]
                · simp [clearsTxBool, htx]
                · by_cases hpt : pyTruthy prov = true
                  · simp only [if_pos hpt]
                    cases prov <;> try (simp [clearsTxBool, htx]; done)
                    next items =>
                      rcases hfr : findRawTopic items with e | otid <;> simp only [hfr]
                      · simp [clearsTxBool, htx]
                      · rcases otid with _ | tid <;> simp [clearsTxBool, htx]
                  · simp only [if_neg hpt]
                    simp [clearsTxBool, htx]
              · simp only [if_neg hprov]
                by_cases horig : ((target == "messageOriginate") && (code == 200 || code == 299)) = true
                · obtain rfl := target_of_cond horig
                  simp only [if_pos horig]
                  rcases hrr : pyGet body "request_reference" (Json.num s.request_reference)
                    with e | rrx <;> simp only [hrr]
                  · simp [clearsTxBool, htx]
                  · rcases hmr : pyGet body "message_response" (Json.str "") with e | mresp <;>
                      simp only [hmr]
                    · simp [clearsTxBool, htx]
                    · by_cases hacc : (pyEq (Json.num s.request_reference) rrx &&
                          pyEq mresp (Json.str "message_accepted")) = true
                      · simp only [if_pos hacc]
                        simp [clearsTxBool, htx]
                      · simp only [if_neg hacc]
                        simp [clearsTxBool, htx]
                · simp only [if_neg horig]
                  by_cases hstat : ((target == "messageOriginateStatus") && (code == 200 || code == 299)) = true
                  · obtain rfl := target_of_cond hstat
                    have hcodes : (code == 200 || code == 299) = true := by
                      rw [Bool.and_eq_true] at hstat
                      exact hstat.2
                    simp only [if_pos hstat]
                    rcases hfm : pyGet body "final_mo_status" (Json.str "") with e | fm <;>
                      simp only [hfm]
                    · simp [clearsTxBool, htx, hcodes, pyGet_error_isObj hfm]
                    · simp [clearsTxBool, htx, hcodes, pyGet_ok_isObj hfm]
                  · simp only [if_neg hstat]
                    have hsf : ((target == "messageOriginateStatus") &&
                        (code == 200 || code == 299)) = false := Bool.eq_false_iff.mpr hstat
                    by_cases hterm : ((target == "messageTerminateSegment") && (code == 299)) = true
                    · obtain rfl := target_of_cond hterm
                      simp only [if_pos hterm]
                      rcases hmi : pyGet body "message_id" (Json.num 0) with e | mi <;>
                        simp only [hmi]
                      · simp [clearsTxBool, htx]
                      · rcases hd : pyGet body "data" (Json.str "") with e | d <;> simp only [hd]
                        · simp [clearsTxBool, htx]
                        · cases d <;> try (simp [clearsTxBool, htx]; done)
                          next ds =>
                            rcases hdm : decode_message ds with e | triple <;> simp only [hdm]
                            · simp [clearsTxBool, htx]
                            · obtain ⟨md, cr, cc⟩ := triple
                              by_cases hcr : cr ≠ cc
                              · simp only [if_pos hcr]
                                simp [clearsTxBool, htx]
                              · simp only [if_neg hcr]
                                by_cases hrt : rawTopicTruthy s.raw_topic_id = true
                                · simp only [if_pos hrt]
                                  rcases hen : encodeAscii ("Ping back " ++
                                      String.mk (decodeReplace md)) with e | payload <;>
                                    simp only [hen]
                                  · simp [clearsTxBool, htx]
                                  · have hsm := send_message_txbuffer_ne_none s payload b htx
                                    simp [clearsTxBool, htx, hsm]
                                · simp only [if_neg hrt]
                                  simp [clearsTxBool, htx]
                    · simp only [if_neg hterm]
                      simp [clearsTxBool, htx, hsf, Bool.and_eq_true]

/-- C4 counterexample: with message id 5 in flight, a successful
`messageOriginateStatus` report for the different id 7 still clears
the outbound buffer — it is not left in place. -/
theorem c4_mismatched_id_counterexample :
    (process_line
      { initialMState with
        message_id := .num 5
        txbuffer := some [1, 2] }
      "200 messageOriginateStatus \x7b\"final_mo_status\":\"mo_ack_received\",\"message_id\":7\x7d").1.txbuffer
        = none ∧
    pyEq (Json.num 7) (Json.num 5) = false :=
  ⟨rfl, rfl⟩

/-- C4 (amended): a stored outbound buffer is cleared exactly on
receipt of a `messageOriginateStatus` report with status 200 or 299
and a parseable dict body, regardless of the `message_id` it carries;
the id only selects the success or failure log message. -/
theorem c4_txbuffer_cleared_iff_mo_status (s : MState) (line : String) (b : List Nat)
    (htx : s.txbuffer = some b) :
    ((process_line s line).1.txbuffer = none ↔ isMoStatusLine line = true) := by
  unfold process_line isMoStatusLine
  rcases hp : parseLine line with _ | ⟨code, target, body⟩
  · simp [htx]
  · have hack : (ackUpdate s target).txbuffer = some b := by
      rw [ackUpdate_txbuffer]; exact htx
    exact dispatch_txbuffer_none_iff (ackUpdate s target) code target body b hack

/-- Witness for C4 (amended) at a concrete session and line. -/
theorem c4_txbuffer_cleared_iff_mo_status_witness :
    (process_line
      { initialMState with
        message_id := .num 5
        txbuffer := some [7] }
      "299 messageOriginateStatus \x7b\"message_id\":1\x7d").1.txbuffer = none :=
  (c4_txbuffer_cleared_iff_mo_status
    { initialMState with
      message_id := .num 5
      txbuffer := some [7] }
    "299 messageOriginateStatus \x7b\"message_id\":1\x7d" [7] rfl).mpr rfl

/-! ### Claims C5, C8 and C10: send guards, malformed lines -/

/-- A session that knows the RAW topic and has signal, with no send
in flight; used by several witnesses. -/
def sampleReady : MState :=
  { initialMState with
    raw_topic_id := some (.num 2)
    bars := .num 3 }

/-- C5: `send_message` rejects with no side effect (state returned
unchanged, no command written) when the RAW topic id is unknown, the
signal-bars value is zero, or a send is already in progress; otherwise
it increments the request reference by one, stores the payload, issues
the single `messageOriginate` PUT carrying the topic id, the payload
length plus two and the new reference, and returns success. -/
theorem c5_send_message_guards (s : MState) (msg : List Nat) :
    ((rawTopicTruthy s.raw_topic_id = false ∨ pyEq s.bars (.num 0) = true ∨
        txTruthy s.txbuffer = true) →
      send_message s msg = (false, s, [])) ∧
    ((rawTopicTruthy s.raw_topic_id = true ∧ pyEq s.bars (.num 0) = false ∧
        txTruthy s.txbuffer = false) →
      send_message s msg =
        (true,
         { s with
            request_reference := s.request_reference + 1
            txbuffer := some msg
            cur_message := some "messageOriginate" },
         [Command.putOriginate s.raw_topic_id (msg.length + 2)
            (s.request_reference + 1)])) := by
  constructor
  · rintro (h | h | h) <;> simp [send_message, h]
  · rintro ⟨h1, h2, h3⟩
    simp [send_message, h1, h2, h3]

/-- Witness for C5: one accepted and one rejected call. -/
theorem c5_send_message_guards_witness :
    send_message sampleReady [1, 2] =
      (true,
       { sampleReady with
          request_reference := 1
          txbuffer := some [1, 2]
          cur_message := some "messageOriginate" },
       [Command.putOriginate (some (.num 2)) 4 1]) ∧
    send_message initialMState [1] = (false, initialMState, []) :=
  ⟨(c5_send_message_guards sampleReady [1, 2]).2 ⟨rfl, rfl, rfl⟩,
   (c5_send_message_guards initialMState [1]).1 (Or.inl rfl)⟩

/-- C8: a malformed line — too few fields, a non-numeric status code,
or an invalid JSON body, all modelled by `parseLine` returning
`none` — is dropped: the session is unchanged and no command is
written.  (`process_line` is a total function, so no exception ever
reaches the caller.) -/
theorem c8_malformed_line_no_change (s : MState) (line : String)
    (hmal : parseLine line = none) :
    process_line s line = (s, []) := by
  unfold process_line
  rw [hmal]

/-- Witness for C8 on a two-field line. -/
theorem c8_malformed_line_no_change_witness :
    process_line initialMState "garbage here" = (initialMState, []) :=
  c8_malformed_line_no_change initialMState "garbage here" rfl

/-- C10: with the RAW topic known and nonzero bars, an empty payload
is accepted and stored, and — because the in-progress guard tests the
buffer's truthiness and `b""` is falsy — a second send is accepted
while the empty message is still in flight and overwrites the
buffer. -/
theorem c10_empty_payload_guard_hole (s : MState) (p : List Nat)
    (hraw : rawTopicTruthy s.raw_topic_id = true)
    (hbars : pyEq s.bars (.num 0) = false)
    (htx : s.txbuffer = none) :
    (send_message s []).1 = true ∧
    (send_message s []).2.1.txbuffer = some [] ∧
    (send_message (send_message s []).2.1 p).1 = true ∧
    (send_message (send_message s []).2.1 p).2.1.txbuffer = some p := by
  simp [send_message, hraw, hbars, htx, txTruthy]

/-- Witness for C10 at a concrete ready session. -/
theorem c10_empty_payload_guard_hole_witness :
    (send_message sampleReady []).1 = true ∧
    (send_message sampleReady []).2.1.txbuffer = some [] ∧
    (send_message (send_message sampleReady []).2.1 [7]).1 = true ∧
    (send_message (send_message sampleReady []).2.1 [7]).2.1.txbuffer = some [7] :=
  c10_empty_payload_guard_hole sampleReady [7] rfl rfl rfl

/-! ### Claim C6: at most one outstanding command -/

/-- The target field of a parsed line. -/
def lineTarget (line : String) : Option String :=
  (parseLine line).map fun x => x.2.1

/-- `send_message` either writes nothing and keeps the outstanding
command, or writes exactly one command and records its target as
outstanding. -/
theorem send_message_cur_cmds (s : MState) (m : List Nat) :
    ((send_message s m).2.2 = [] ∧
      (send_message s m).2.1.cur_message = s.cur_message) ∨
    (∃ c, (send_message s m).2.2 = [c] ∧
      (send_message s m).2.1.cur_message = some (cmdTarget c)) := by
  unfold send_message
  repeat' split
  · exact Or.inl ⟨by trivial, by trivial⟩
  · exact Or.inl ⟨by trivial, by trivial⟩
  · exact Or.inl ⟨by trivial, by trivial⟩
  · exact Or.inr ⟨_, rfl, rfl⟩

/-- The dispatch chain either writes nothing and keeps the outstanding
command, or writes exactly one command (the segment send after an
accepted originate, or the ping-back originate) and records its target
as outstanding. -/
theorem dispatch_cur_message (s : MState) (code : Int) (target : String) (body : Json) :
    ((dispatch s code target body).2 = [] ∧
      (dispatch s code target body).1.cur_message = s.cur_message) ∨
    (∃ c, (dispatch s code target body).2 = [c] ∧
      (dispatch s code target body).1.cur_message = some (cmdTarget c)) := by
  unfold dispatch
  by_cases h400 : code = 400
  · simp only [if_pos h400]
    exact Or.inl ⟨by trivial, by trivial⟩
  · simp only [if_neg h400]
    by_cases hapi : ((target == "apiVersion") && (code == 200 || code == 299 || code == 402)) = true
    · simp only [if_pos hapi]
      rcases hav : pyGet body "active_version" (Json.obj []) with e | av <;> simp only [hav]
      · exact Or.inl ⟨by trivial, by trivial⟩
      · rcases hmj : pyGet av "major" (Json.num 0) with e | mj <;> simp only [hmj]
        · exact Or.inl ⟨by trivial, by trivial⟩
        · rcases hn : asCmpNum mj with e | n <;> simp only [hn]
          · exact Or.inl ⟨by trivial, by trivial⟩
          · by_cases hge : n ≥ 1
            · simp only [if_pos hge]
              exact Or.inl ⟨by trivial, by trivial⟩
            · simp only [if_neg hge]
              exact Or.inl ⟨by trivial, by trivial⟩
    · simp only [if_neg hapi]
      by_cases hhw : ((target == "hwInfo") && (code == 200 || code == 299 || code == 402)) = true
      · simp only [if_pos hhw]
        exact Or.inl ⟨by trivial, by trivial⟩
      · simp only [if_neg hhw]
        by_cases hsim : ((target == "simConfig") && (code == 200 || code == 299 || code == 402)) = true
        · simp only [if_pos hsim]
          exact Or.inl ⟨by trivial, by trivial⟩
        · simp only [if_neg hsim]
          by_cases hop : ((target == "operationalState") &&
              (code == 200 || code == 299 || code == 402 || code == 406)) = true
          · simp only [if_pos hop]
            exact Or.inl ⟨by trivial, by trivial⟩
          · simp only [if_neg hop]
            by_cases hcon : ((target == "constellationState") && (code == 200 || code == 299)) = true
            · simp only [if_pos hcon]
              rcases hvis : pyGet body "constellation_visible" (Json.bool false) with e | vis <;>
                simp only [hvis]
              · exact Or.inl ⟨by trivial, by trivial⟩
              · by_cases htr : pyTruthy vis = true
                · simp only [if_pos htr]
                  rcases hsb : pyGet body "signal_bars" (Json.num 0) with e | sb <;>
                    simp only [hsb]
                  · exact Or.inl ⟨by trivial, by trivial⟩
                  · exact Or.inl ⟨by trivial, by trivial⟩
                · simp only [if_neg htr]
                  rcases hsb : pyGet body "signal_bars" (Json.num 0) with e | sb <;>
                    simp only [hsb]
                  · exact Or.inl ⟨by trivial, by trivial⟩
                  · exact Or.inl ⟨by trivial, by trivial⟩
            · simp only [if_neg hcon]
              by_cases hprov : ((target == "messageProvisioning") && (code == 200 || code == 299)) = true
              · simp only [if_pos hprov]
                rcases hpr : pyGet body "provisioning" (Json.arr []) with e | prov <;>
                  simp only [hpr]
                · exact Or.inl ⟨by trivial, by trivial⟩
                · by_cases hpt : pyTruthy prov = true
                  · simp only [if_pos hpt]
                    cases prov <;> try exact Or.inl ⟨by trivial, by trivial⟩
                    next items =>
                      rcases hfr : findRawTopic items with e | otid <;> simp only [hfr]
                      · exact Or.inl ⟨by trivial, by trivial⟩
                      · rcases otid with _ | tid
                        · exact Or.inl ⟨by trivial, by trivial⟩
                        · exact Or.inl ⟨by trivial, by trivial⟩
                  · simp only [if_neg hpt]
                    exact Or.inl ⟨by trivial, by trivial⟩
              · simp only [if_neg hprov]
                by_cases horig : ((target == "messageOriginate") && (code == 200 || code == 299)) = true
                · simp only [if_pos horig]
                  rcases hrr : pyGet body "request_reference" (Json.num s.request_reference)
                    with e | rrx <;> simp only [hrr]
                  · exact Or.inl ⟨by trivial, by trivial⟩
                  · rcases hmr : pyGet body "message_response" (Json.str "") with e | mresp <;>
                      simp only [hmr]
                    · exact Or.inl ⟨by trivial, by trivial⟩
                    · by_cases hacc : (pyEq (Json.num s.request_reference) rrx &&
                          pyEq mresp (Json.str "message_accepted")) = true
                      · simp only [if_pos hacc]
                        rcases htb : s.txbuffer with _ | buf <;> simp only [htb]
                        · exact Or.inl ⟨by trivial, by trivial⟩
                        · exact Or.inr ⟨_, rfl, rfl⟩
                      · simp only [if_neg hacc]
                        exact Or.inl ⟨by trivial, by trivial⟩
                · simp only [if_neg horig]
                  by_cases hstat : ((target == "messageOriginateStatus") && (code == 200 || code == 299)) = true
                  · simp only [if_pos hstat]
                    rcases hfm : pyGet body "final_mo_status" (Json.str "") with e | fm <;>
                      simp only [hfm]
                    · exact Or.inl ⟨by trivial, by trivial⟩
                    · exact Or.inl ⟨by trivial, by trivial⟩
                  · simp only [if_neg hstat]
                    by_cases hterm : ((target == "messageTerminateSegment") && (code == 299)) = true
                    · simp only [if_pos hterm]
                      rcases hmi : pyGet body "message_id" (Json.num 0) with e | mi <;>
                        simp only [hmi]
                      · exact Or.inl ⟨by trivial, by trivial⟩
                      · rcases hd : pyGet body "data" (Json.str "") with e | d <;> simp only [hd]
                        · exact Or.inl ⟨by trivial, by trivial⟩
                        · cases d <;> try exact Or.inl ⟨by trivial, by trivial⟩
                          next ds =>
                            rcases hdm : decode_message ds with e | triple <;> simp only [hdm]
                            · exact Or.inl ⟨by trivial, by trivial⟩
                            · obtain ⟨md, cr, cc⟩ := triple
                              by_cases hcr : cr ≠ cc
                              · simp only [if_pos hcr]
                                exact Or.inl ⟨by trivial, by trivial⟩
                              · simp only [if_neg hcr]
                                by_cases hrt : rawTopicTruthy s.raw_topic_id = true
                                · simp only [if_pos hrt]
                                  rcases hen : encodeAscii ("Ping back " ++
                                      String.mk (decodeReplace md)) with e | payload <;>
                                    simp only [hen]
                                  · exact Or.inl ⟨by trivial, by trivial⟩
                                  · exact send_message_cur_cmds s payload
                                · simp only [if_neg hrt]
                                  exact Or.inl ⟨by trivial, by trivial⟩
                    · simp only [if_neg hterm]
                      exact Or.inl ⟨by trivial, by trivial⟩

/-- C6 counterexample: with `messageOriginate` outstanding, a matching
accepted `messageOriginate` response does not leave the outstanding
command cleared — the segment PUT it triggers immediately becomes the
new outstanding command. -/
theorem c6_ack_clears_counterexample :
    lineTarget "299 messageOriginate \x7b\"request_reference\":1,\"message_response\":\"message_accepted\",\"message_id\":9\x7d"
      = some "messageOriginate" ∧
    (process_line
      { initialMState with
        cur_message := some "messageOriginate"
        txbuffer := some [65]
        raw_topic_id := some (.num 1)
        request_reference := 1
        bars := .num 3 }
      "299 messageOriginate \x7b\"request_reference\":1,\"message_response\":\"message_accepted\",\"message_id\":9\x7d").1.cur_message
      = some "messageOriginateSegment" :=
  ⟨rfl, rfl⟩

/-- C6 (amended): one driver-loop step issues a command only when none
is outstanding; processing a line that writes no command clears the
outstanding command exactly when the line's target matches it (or none
was outstanding); a line that writes a command — the segment send
after an accepted originate, or the ping-back originate — leaves that
command's target outstanding; and a line never writes more than one
command. -/
theorem c6_at_most_one_outstanding (s : MState) (line : String) :
    (s.cur_message ≠ none → initStep s = (s, [])) ∧
    ((process_line s line).2 = [] →
      ((process_line s line).1.cur_message = none ↔
        (s.cur_message = none ∨ lineTarget line = s.cur_message))) ∧
    (∀ c, (process_line s line).2 = [c] →
      (process_line s line).1.cur_message = some (cmdTarget c)) ∧
    ((process_line s line).2 = [] ∨ ∃ c, (process_line s line).2 = [c]) := by
  refine ⟨?_, ?_⟩
  · intro h
    unfold initStep
    rcases hc : s.cur_message with _ | t
    · exact absurd hc h
    · rfl
  · rcases hp : parseLine line with _ | ⟨code, target, body⟩
    · have he : process_line s line = (s, []) := by
        unfold process_line; rw [hp]
      have hlt : lineTarget line = none := by
        unfold lineTarget; rw [hp]; rfl
      rw [he, hlt]
      refine ⟨?_, ?_, Or.inl rfl⟩
      · intro _
        constructor
        · intro h; exact Or.inl h
        · rintro (h | h)
          · exact h
          · exact h.symm
      · intro c hc
        exact absurd hc (by simp)
    · have he : process_line s line = dispatch (ackUpdate s target) code target body := by
        unfold process_line; rw [hp]
      have hlt : lineTarget line = some target := by
        unfold lineTarget; rw [hp]; rfl
      rw [he, hlt]
      rcases dispatch_cur_message (ackUpdate s target) code target body with
        ⟨h1, h2⟩ | ⟨c, h1, h2⟩
      · refine ⟨?_, ?_, Or.inl h1⟩
        · intro _
          rw [h2]
          unfold ackUpdate
          by_cases hm : s.cur_message = some target
          · simp only [if_pos hm]
            constructor
            · intro _; exact Or.inr (by rw [hm])
            · intro _; trivial
          · simp only [if_neg hm]
            constructor
            · intro h; exact Or.inl h
            · rintro (h | h)
              · exact h
              · exact absurd h.symm hm
        · intro c hc
          rw [h1] at hc
          exact absurd hc (by simp)
      · refine ⟨?_, ?_, Or.inr ⟨c, h1⟩⟩
        · intro hnil
          rw [h1] at hnil
          exact absurd hnil (by simp)
        · intro c' hc'
          rw [h1] at hc'
          injection hc' with hcc _
          rw [← hcc]
          exact h2

/-- Witness for C6 at a busy session: the driver loop writes nothing
while `apiVersion` is outstanding. -/
theorem c6_at_most_one_outstanding_witness :
    initStep { initialMState with cur_message := some "apiVersion" } =
      ({ initialMState with cur_message := some "apiVersion" }, []) :=
  (c6_at_most_one_outstanding { initialMState with cur_message := some "apiVersion" }
    "200 apiVersion \x7b\x7d").1 (by decide)

/-! ### Claim C9: chunked reads deliver the CR-delimited segments -/

theorem splitCR_no_cr (l : List Nat) (h : 13 ∉ l) : splitCR l = ([], l) := by
  induction l with
  | nil => rfl
  | cons b rest ih =>
      rw [List.mem_cons, not_or] at h
      obtain ⟨h1, h2⟩ := h
      have hb : ¬b = 13 := fun he => h1 he.symm
      rw [show splitCR (b :: rest) =
          (match splitCR rest with
           | ([], t) => ([], b :: t)
           | (seg :: more, t) => ((b :: seg) :: more, t)) from by
        simp [splitCR, hb]]
      rw [ih h2]

/-- The retained buffer never contains a CR. -/
theorem splitCR_tail_no_cr (l : List Nat) : 13 ∉ (splitCR l).2 := by
  induction l with
  | nil => simp [splitCR]
  | cons b rest ih =>
      by_cases hb : b = 13
      · subst hb
        simpa [splitCR] using ih
      · rcases hx : splitCR rest with ⟨σ, τ⟩
        rw [hx] at ih
        rcases σ with _ | ⟨s0, ss⟩
        · simp only [splitCR, if_neg hb, hx]
          rw [List.mem_cons, not_or]
          exact ⟨fun he => hb he.symm, ih⟩
        · simpa [splitCR, hb, hx] using ih

/-- Splitting a concatenation: the first part's segments come out
unchanged, its trailing fragment merges into the rest. -/
theorem splitCR_append (x y : List Nat) :
    splitCR (x ++ y) =
      ((splitCR x).1 ++ (splitCR ((splitCR x).2 ++ y)).1,
       (splitCR ((splitCR x).2 ++ y)).2) := by
  induction x with
  | nil => simp [splitCR]
  | cons b x' ih =>
      by_cases hb : b = 13
      · subst hb
        simp [List.cons_append, splitCR, ih]
      · rcases hx : splitCR x' with ⟨σ, τ⟩
        rw [hx] at ih
        rcases hT : splitCR (τ ++ y) with ⟨ts, tt⟩
        rw [hT] at ih
        rcases σ with _ | ⟨s0, ss⟩
        · rcases ts with _ | ⟨t0, tss⟩
          · simp [List.cons_append, splitCR, hb, ih, hx, hT]
          · simp [List.cons_append, splitCR, hb, ih, hx, hT]
        · simp [List.cons_append, splitCR, hb, ih, hx, hT]

/-- One `read_serial` call in closed form. -/
theorem readStep_eq (buf c : List Nat) :
    readStep buf c =
      (((splitCR (buf ++ c)).1.map segText).filter (fun l => l ≠ ""),
       (splitCR (buf ++ c)).2) := by
  unfold readStep
  by_cases hc : (buf ++ c).contains 13 = true
  · rw [if_pos hc]
  · have hcf : 13 ∉ buf ++ c := by
      rcases hm : (buf ++ c).contains 13 with _ | _
      · simp_all
      · exact absurd hm hc
    rw [if_neg hc, splitCR_no_cr _ hcf]
    rfl

/-- Feeding chunks from a CR-free buffer delivers exactly the nonempty
stripped decoded segments of the concatenation, and retains the bytes
after the last CR. -/
theorem feedChunks_spec (chunks : List (List Nat)) :
    ∀ buf, 13 ∉ buf →
      feedChunks buf chunks =
        (((splitCR (buf ++ chunks.flatten)).1.map segText).filter (fun l => l ≠ ""),
         (splitCR (buf ++ chunks.flatten)).2) := by
  induction chunks with
  | nil =>
      intro buf hbuf
      simp [feedChunks, splitCR_no_cr _ hbuf]
  | cons c cs ih =>
      intro buf hbuf
      have htail : 13 ∉ (splitCR (buf ++ c)).2 := splitCR_tail_no_cr _
      have hrec := ih (splitCR (buf ++ c)).2 htail
      rw [show feedChunks buf (c :: cs) =
          ((readStep buf c).1 ++ (feedChunks (readStep buf c).2 cs).1,
           (feedChunks (readStep buf c).2 cs).2) from rfl]
      rw [readStep_eq buf c]
      simp only []
      rw [hrec]
      have hjoin : buf ++ (c :: cs).flatten = (buf ++ c) ++ cs.flatten := by
        simp [List.append_assoc]
      rw [hjoin, splitCR_append (buf ++ c) cs.flatten]
      simp [List.map_append, List.filter_append]

/-- C9 counterexample: the chunk `b"a\r\rb\r"` yields the CR-delimited
segments `a`, `` (empty), `b`, but only `"a"`, `"b"` are delivered —
the segment that is empty after stripping is dropped, so the delivered
lines are not exactly the trimmed decoded segments. -/
theorem c9_empty_segment_counterexample :
    (readStep [] [97, 13, 13, 98, 13]).1 = ["a", "b"] ∧
    (splitCR [97, 13, 13, 98, 13]).1.map segText = ["a", "", "b"] :=
  ⟨rfl, rfl⟩

/-- C9 (amended): for every way of chunking a byte stream, the lines
delivered across the successive `read_serial` calls are exactly the
CR-delimited segments of the concatenated stream, in order, each
decoded with replacement and stripped, *excluding those that are empty
after stripping*; the final buffer holds exactly the bytes after the
last CR — the partial trailing fragment is never discarded. -/
theorem c9_chunked_reads_deliver_segments (chunks : List (List Nat)) :
    feedChunks [] chunks =
      (((splitCR chunks.flatten).1.map segText).filter (fun l => l ≠ ""),
       (splitCR chunks.flatten).2) := by
  have h := feedChunks_spec chunks [] (by simp)
  simpa using h

end RB9704
